import Mathlib

/-!
Shallow embedding of the `Anon` assistant (`anon.py`) and verification of its
specification.

External collaborators (the Keras classifier, nmap scanner, pyttsx3 speech
output, the speech-recognition backend and the dialogue pipeline) are modelled
as inputs: the classifier's prediction is a rational score, each random draw is
an explicit index, and a command's interactive `input()` reads are fields of a
per-iteration environment.  Spoken output (`Anon.speak`) is collected into a
trace; `print`/logging output carries no state and is not traced.
-/

/-- The four personalities of `Anon.define_personality`. -/
inductive Personality
  | friendly
  | aggressive
  | neutral
  | curious
deriving DecidableEq, Repr

/-- The list `personalities` in `Anon.define_personality`. -/
def personalities : List Personality :=
  [Personality.friendly, Personality.aggressive, Personality.neutral, Personality.curious]

/-- `Anon.define_personality`: `random.choice(personalities)`, the random draw
modelled as an index into the list. -/
def define_personality (i : Fin personalities.length) : Personality :=
  personalities.get i

/-- The string name of a personality, as interpolated into messages. -/
def personalityName : Personality → String
  | Personality.friendly => "friendly"
  | Personality.aggressive => "aggressive"
  | Personality.neutral => "neutral"
  | Personality.curious => "curious"

/-- `Anon.make_decision`: the classifier's prediction is passed in as a
rational score; returns the decision label that the method logs, speaks and
returns. -/
def make_decision (personality : Personality) (prediction : ℚ) : String :=
  if personality = Personality.aggressive then
    if prediction > 0.4 then "Attack" else "Monitor"
  else if personality = Personality.curious then
    if prediction > 0.3 then "Analyze" else "Observe"
  else
    if prediction > 0.5 then "Monitor" else "Ignore"

/-- The `self.user_memory` dict: a partial map from user id to data. -/
def Memory : Type := String → Option String

/-- `self.user_memory = {}` in `Anon.__init__`. -/
def emptyMemory : Memory := fun _ => none

/-- `Anon.remember_user`: `self.user_memory[user_id] = data`. -/
def remember_user (mem : Memory) (user_id data : String) : Memory :=
  fun k => if k = user_id then some data else mem k

/-- `Anon.recall_user`: `self.user_memory.get(user_id, "No data available")`. -/
def recall_user (mem : Memory) (user_id : String) : String :=
  (mem user_id).getD "No data available"

/-- The `responses` dict of `Anon.respond`. -/
def responses : Personality → List String
  | Personality.friendly => ["I'm here to help!", "At your service!", "Let me assist you."]
  | Personality.aggressive => ["Let's get things done!", "Time to take control!", "I'm ready to attack."]
  | Personality.neutral => ["What would you like me to do?", "I'm here.", "Awaiting instructions."]
  | Personality.curious => ["Tell me more!", "Interesting, let’s dig deeper.", "Let’s learn together!"]

/-- `Anon.respond(message)`: `random.choice(responses[self.personality])`, the
random draw modelled as an index; the chosen phrase is printed, spoken and
returned.  The `message` argument is never read by the source method. -/
def respond (p : Personality) (i : Fin 3) (message : String) : String :=
  (responses p).get ⟨i.val, by cases p <;> exact i.isLt⟩

/-- Outcome of `recognizer.recognize_google(audio)` in `Anon.listen`: a
recognized utterance, `sr.UnknownValueError`, or `sr.RequestError`. -/
inductive SpeechResult
  | recognized (text : String)
  | unknownValueError
  | requestError

/-- `Anon.listen`: lower-cases a recognized utterance; both exception handlers
return `None`. -/
def listen (r : SpeechResult) : Option String :=
  match r with
  | SpeechResult.recognized text => some text.toLower
  | SpeechResult.unknownValueError => none
  | SpeechResult.requestError => none

/-- The actions `Anon.handle_command` dispatches to, one per branch. -/
inductive CommandAction
  | ScanNetwork
  | Train
  | Decide
  | Respond
  | Pwn
  | Converse
  | Remember
  | Recall
  | Unknown
deriving DecidableEq, Repr

/-- The dispatch structure of `Anon.handle_command`: the chain of
`command in [...]` tests, in source order. -/
def route (command : String) : CommandAction :=
  if command ∈ ["scan network", "scan"] then CommandAction.ScanNetwork
  else if command ∈ ["learn", "train"] then CommandAction.Train
  else if command ∈ ["make decision", "decision"] then CommandAction.Decide
  else if command ∈ ["how are you", "hello"] then CommandAction.Respond
  else if command ∈ ["pwn", "attack"] then CommandAction.Pwn
  else if command ∈ ["converse", "talk"] then CommandAction.Converse
  else if command ∈ ["remember", "remember user"] then CommandAction.Remember
  else if command ∈ ["recall", "recall user"] then CommandAction.Recall
  else CommandAction.Unknown

/-- All phrases recognized by a branch of `Anon.handle_command`. -/
def documentedPhrases : List String :=
  ["scan network", "scan", "learn", "train", "make decision", "decision",
   "how are you", "hello", "pwn", "attack", "converse", "talk",
   "remember", "remember user", "recall", "recall user"]

/-- Mutable state of an `Anon` instance that the modelled operations touch:
the personality chosen at construction and the user-memory dict.  The heavy
collaborators (`self.network`, `self.nm`, `self.engine`) hold no modelled
state. -/
structure Anon where
  personality : Personality
  user_memory : Memory

/-- Per-iteration environment: the external inputs one `handle_command` call
may consume (classifier prediction, random phrase index, the formatted
placeholder accuracy of `provide_learning_feedback`, the `input()` reads of the
remember branch, and the dialogue pipeline's reply). -/
structure CmdEnv where
  prediction : ℚ
  respIdx : Fin 3
  accuracyText : String
  rememberId : String
  rememberData : String
  converseReply : String

/-- `Anon.handle_command`: dispatches on the command and returns the updated
state together with the list of utterances spoken (via `Anon.speak`) while
processing it.  The scan, pwn, remember and recall branches print and log but
speak nothing; learn speaks its completion message and then the feedback of
`provide_learning_feedback`. -/
def handle_command (env : CmdEnv) (command : String) (a : Anon) : Anon × List String :=
  match route command with
  | CommandAction.ScanNetwork => (a, [])
  | CommandAction.Train =>
      (a, ["I have finished learning and feel " ++ personalityName a.personality ++ ".",
           "Learning completed with an accuracy of " ++ env.accuracyText])
  | CommandAction.Decide =>
      (a, ["I have decided to " ++ make_decision a.personality env.prediction])
  | CommandAction.Respond =>
      (a, [respond a.personality env.respIdx "How are you?"])
  | CommandAction.Pwn => (a, [])
  | CommandAction.Converse => (a, [env.converseReply])
  | CommandAction.Remember =>
      ({ a with user_memory := remember_user a.user_memory env.rememberId env.rememberData }, [])
  | CommandAction.Recall => (a, [])
  | CommandAction.Unknown => (a, ["I'm not sure how to respond to that."])

/-- The exit phrases tested by the loop in `launch`. -/
def exitCommands : List String := ["exit", "quit", "stop"]

/-- The `while True` loop of `launch`.  Each list element is one line read from
stdin, already normalized by `.strip().lower()` as the source does, paired with
that iteration's external inputs.  Every iteration first runs `handle_command`
on the command and then, if the command is an exit phrase, speaks "Goodbye!"
and breaks; otherwise the loop continues with the remaining input.  Returns
the final state and the full utterance trace of the loop. -/
def runSession : Anon → List (CmdEnv × String) → Anon × List String
  | a, [] => (a, [])
  | a, (env, command) :: rest =>
      let step := handle_command env command a
      if command ∈ exitCommands then
        (step.1, step.2 ++ ["Goodbye!"])
      else
        let next := runSession step.1 rest
        (next.1, step.2 ++ next.2)

/-- A concrete per-iteration environment used to exercise the model. -/
def env0 : CmdEnv :=
  { prediction := 0.6, respIdx := 0, accuracyText := "0.85",
    rememberId := "alice", rememberData := "likes tea", converseReply := "Hello there." }

/-- A concrete freshly constructed instance: some personality, empty memory. -/
def anon0 : Anon := { personality := Personality.friendly, user_memory := emptyMemory }

/-- A concrete instance whose memory already holds a key. -/
def anon1 : Anon :=
  { personality := Personality.neutral,
    user_memory := remember_user emptyMemory "alice" "likes tea" }

/-! Helper lemmas shared by the claim theorems. -/

lemma ite_eq_left_iff_of_ne {c : Prop} [Decidable c] {a b : String} (hne : a ≠ b) :
    ((if c then a else b) = a ↔ c) := by
  split_ifs with h
  · simp [h]
  · simp [h, hne.symm]

lemma ite_eq_right_iff_not {c : Prop} [Decidable c] {a b : String} (hne : a ≠ b) :
    ((if c then a else b) = b ↔ ¬ c) := by
  split_ifs with h
  · simp [h, hne]
  · simp [h]

lemma make_decision_aggressive (s : ℚ) :
    make_decision Personality.aggressive s = if s > 0.4 then "Attack" else "Monitor" := rfl

lemma make_decision_curious (s : ℚ) :
    make_decision Personality.curious s = if s > 0.3 then "Analyze" else "Observe" := rfl

lemma make_decision_friendly (s : ℚ) :
    make_decision Personality.friendly s = if s > 0.5 then "Monitor" else "Ignore" := rfl

lemma make_decision_neutral (s : ℚ) :
    make_decision Personality.neutral s = if s > 0.5 then "Monitor" else "Ignore" := rfl

lemma handle_command_personality (env : CmdEnv) (command : String) (a : Anon) :
    (handle_command env command a).1.personality = a.personality := by
  unfold handle_command
  split <;> rfl

lemma runSession_personality (a : Anon) (inputs : List (CmdEnv × String)) :
    (runSession a inputs).1.personality = a.personality := by
  induction inputs generalizing a with
  | nil => rfl
  | cons hd tl ih =>
      obtain ⟨env, command⟩ := hd
      unfold runSession
      split_ifs with h
      · exact handle_command_personality env command a
      · exact (ih _).trans (handle_command_personality env command a)

lemma handle_command_memory_mono (env : CmdEnv) (command : String) (a : Anon) (k : String)
    (hk : a.user_memory k ≠ none) :
    (handle_command env command a).1.user_memory k ≠ none := by
  unfold handle_command
  split <;> try exact hk
  simp only [remember_user]
  split_ifs with h
  · simp
  · exact hk

lemma runSession_memory_mono (a : Anon) (inputs : List (CmdEnv × String)) (k : String)
    (hk : a.user_memory k ≠ none) :
    (runSession a inputs).1.user_memory k ≠ none := by
  induction inputs generalizing a with
  | nil => exact hk
  | cons hd tl ih =>
      obtain ⟨env, command⟩ := hd
      unfold runSession
      split_ifs with h
      · exact handle_command_memory_mono env command a k hk
      · exact ih _ (handle_command_memory_mono env command a k hk)

/-! Claim theorems. -/

/-- C1: for every personality and every score in [0,1], `make_decision` follows
the table of §4.2 with strict comparisons: aggressive gives "Attack" exactly
when 0.4 < s and "Monitor" otherwise; curious gives "Analyze" exactly when
0.3 < s and "Observe" otherwise; friendly and neutral give "Monitor" exactly
when 0.5 < s and "Ignore" otherwise; in particular s = 0.4 under aggressive
gives "Monitor", and s = 0.6 gives "Analyze" under curious and "Monitor" under
neutral. -/
theorem make_decision_matches_table (s : ℚ) (h0 : 0 ≤ s) (h1 : s ≤ 1) :
    ((make_decision Personality.aggressive s = "Attack" ↔ (0.4 : ℚ) < s) ∧
     (make_decision Personality.aggressive s = "Monitor" ↔ ¬ (0.4 : ℚ) < s)) ∧
    ((make_decision Personality.curious s = "Analyze" ↔ (0.3 : ℚ) < s) ∧
     (make_decision Personality.curious s = "Observe" ↔ ¬ (0.3 : ℚ) < s)) ∧
    ((make_decision Personality.friendly s = "Monitor" ↔ (0.5 : ℚ) < s) ∧
     (make_decision Personality.friendly s = "Ignore" ↔ ¬ (0.5 : ℚ) < s)) ∧
    ((make_decision Personality.neutral s = "Monitor" ↔ (0.5 : ℚ) < s) ∧
     (make_decision Personality.neutral s = "Ignore" ↔ ¬ (0.5 : ℚ) < s)) ∧
    make_decision Personality.aggressive 0.4 = "Monitor" ∧
    make_decision Personality.curious 0.6 = "Analyze" ∧
    make_decision Personality.neutral 0.6 = "Monitor" := by
  refine ⟨⟨?_, ?_⟩, ⟨?_, ?_⟩, ⟨?_, ?_⟩, ⟨?_, ?_⟩, ?_, ?_, ?_⟩ <;>
    simp only [make_decision_aggressive, make_decision_curious,
      make_decision_friendly, make_decision_neutral] <;>
    first
      | exact ite_eq_left_iff_of_ne (by decide)
      | exact ite_eq_right_iff_not (by decide)
      | norm_num

/-- Witness for C1 at the boundary score s = 0.4. -/
theorem make_decision_matches_table_witness :
    make_decision Personality.aggressive 0.4 = "Monitor" :=
  (make_decision_matches_table 0.4 (by norm_num) (by norm_num)).2.2.2.2.1

/-- C4: after `remember_user`, `recall_user` on the same id returns exactly the
remembered value, for every prior memory state (the write overwrites
unconditionally). -/
theorem remember_then_recall (mem : Memory) (user_id data : String) :
    recall_user (remember_user mem user_id data) user_id = data := by
  simp [recall_user, remember_user]

/-- C5: `recall_user` on an id absent from the memory returns the sentinel
"No data available" (and, being a total function, cannot fail). -/
theorem recall_unknown_sentinel (mem : Memory) (user_id : String)
    (h : mem user_id = none) :
    recall_user mem user_id = "No data available" := by
  simp [recall_user, h]

/-- Witness for C5: recall on the empty memory. -/
theorem recall_unknown_sentinel_witness :
    recall_user emptyMemory "alice" = "No data available" :=
  recall_unknown_sentinel emptyMemory "alice" rfl

/-- C6: for every personality, every random draw and every message,
`respond` returns a member of that personality's fixed 3-phrase list, and under
"friendly" the result is never a phrase of another personality's list. -/
theorem respond_within_personality_list (p : Personality) (i : Fin 3) (m : String) :
    respond p i m ∈ responses p ∧
    respond Personality.friendly i m ∉ responses Personality.aggressive ∧
    respond Personality.friendly i m ∉ responses Personality.neutral ∧
    respond Personality.friendly i m ∉ responses Personality.curious := by
  refine ⟨?_, ?_, ?_, ?_⟩
  · cases p <;> fin_cases i <;> simp only [respond] <;> decide
  · fin_cases i <;> simp only [respond] <;> decide
  · fin_cases i <;> simp only [respond] <;> decide
  · fin_cases i <;> simp only [respond] <;> decide

/-- C9: `respond` never reads its message argument: for the same personality
and the same random draw, any two messages produce the same phrase (and hence
the same printed and spoken output). -/
theorem respond_ignores_message (p : Personality) (i : Fin 3) (m₁ m₂ : String) :
    respond p i m₁ = respond p i m₂ := rfl

/-- C2 fails as stated: on reading "exit" the loop emits the unknown-command
fallback before the farewell, because the exit phrases are not recognized by
`handle_command`; the trace of the iteration is not just the farewell. -/
theorem exit_fallback_counterexample :
    (runSession anon0 [(env0, "exit")]).2 =
      ["I'm not sure how to respond to that.", "Goodbye!"] ∧
    (runSession anon0 [(env0, "exit")]).2 ≠ ["Goodbye!"] := by
  refine ⟨rfl, by decide⟩

/-- C2 (amended): for every personality and state, reading one of "exit",
"quit", "stop" terminates the loop — the remaining input is never read and
the state is unchanged — after emitting exactly two utterances: the
unknown-command fallback (the exit phrases match no `handle_command` branch)
followed by exactly one farewell "Goodbye!". -/
theorem exit_terminates_loop (env : CmdEnv) (command : String) (a : Anon)
    (h : command ∈ exitCommands) (rest : List (CmdEnv × String)) :
    runSession a ((env, command) :: rest) =
      (a, ["I'm not sure how to respond to that.", "Goodbye!"]) := by
  fin_cases h <;> rfl

/-- Witness for C2 (amended): a session that reads "quit". -/
theorem exit_terminates_loop_witness :
    runSession anon0 [(env0, "quit")] =
      (anon0, ["I'm not sure how to respond to that.", "Goodbye!"]) :=
  exit_terminates_loop env0 "quit" anon0 (by decide) []

/-- C3: each documented phrase pair of `handle_command` dispatches both
synonyms to the same action, and every string outside the documented phrase
set dispatches to `Unknown`, whose handling leaves the state unchanged and
speaks exactly the fixed fallback utterance (and, `handle_command` being a
total function, raises no error). -/
theorem route_synonyms_and_unknown_fallback :
    route "scan" = route "scan network" ∧ route "scan" = CommandAction.ScanNetwork ∧
    route "learn" = route "train" ∧ route "learn" = CommandAction.Train ∧
    route "make decision" = route "decision" ∧ route "make decision" = CommandAction.Decide ∧
    route "how are you" = route "hello" ∧ route "how are you" = CommandAction.Respond ∧
    route "pwn" = route "attack" ∧ route "pwn" = CommandAction.Pwn ∧
    route "converse" = route "talk" ∧ route "converse" = CommandAction.Converse ∧
    route "remember" = route "remember user" ∧ route "remember" = CommandAction.Remember ∧
    route "recall" = route "recall user" ∧ route "recall" = CommandAction.Recall ∧
    ∀ command : String, command ∉ documentedPhrases →
      route command = CommandAction.Unknown ∧
      ∀ env a, handle_command env command a =
        (a, ["I'm not sure how to respond to that."]) := by
  refine ⟨rfl, rfl, rfl, rfl, rfl, rfl, rfl, rfl, rfl, rfl, rfl, rfl, rfl, rfl, rfl, rfl, ?_⟩
  intro command h
  simp only [documentedPhrases, List.mem_cons, List.not_mem_nil, or_false, not_or] at h
  obtain ⟨h1, h2, h3, h4, h5, h6, h7, h8, h9, h10, h11, h12, h13, h14, h15, h16⟩ := h
  have hroute : route command = CommandAction.Unknown := by
    simp [route, h1, h2, h3, h4, h5, h6, h7, h8, h9, h10, h11, h12, h13, h14, h15, h16]
  refine ⟨hroute, fun env a => ?_⟩
  unfold handle_command
  rw [hroute]

/-- Witness for C3: an arbitrary unrecognized string. -/
theorem route_synonyms_and_unknown_fallback_witness :
    route "self destruct" = CommandAction.Unknown ∧
    handle_command env0 "self destruct" anon0 =
      (anon0, ["I'm not sure how to respond to that."]) := by
  have h :=
    route_synonyms_and_unknown_fallback.2.2.2.2.2.2.2.2.2.2.2.2.2.2.2.2
      "self destruct" (by decide)
  exact ⟨h.1, h.2 env0 anon0⟩

/-- C7: the personality is chosen at construction from the fixed four-element
list, and neither a single dispatched command nor a whole session changes it:
the personality observed after any prefix of the loop equals the one chosen at
construction. -/
theorem personality_fixed_for_session :
    (∀ i : Fin personalities.length, define_personality i ∈ personalities) ∧
    (∀ env command a, (handle_command env command a).1.personality = a.personality) ∧
    (∀ a inputs, (runSession a inputs).1.personality = a.personality) :=
  ⟨fun i => List.get_mem personalities i.1 i.2,
   handle_command_personality, runSession_personality⟩

/-- C8: `listen` lower-cases the recognized text on success and returns `none`
for both failure modes of the backend (`UnknownValueError`, `RequestError`);
no other outcome is possible. -/
theorem listen_contract :
    (∀ t, listen (SpeechResult.recognized t) = some t.toLower) ∧
    listen SpeechResult.unknownValueError = none ∧
    listen SpeechResult.requestError = none ∧
    (∀ r, (∃ t, r = SpeechResult.recognized t ∧ listen r = some t.toLower) ∨
      listen r = none) := by
  refine ⟨fun t => rfl, rfl, rfl, fun r => ?_⟩
  cases r with
  | recognized t => exact Or.inl ⟨t, rfl, rfl⟩
  | unknownValueError => exact Or.inr rfl
  | requestError => exact Or.inr rfl

/-- C10: `remember_user` changes no key other than the written one; the recall
branch of `handle_command` leaves the whole state (in particular the memory)
unchanged; and no operation of a session removes an entry, so a key present in
memory is still present after any session. -/
theorem memory_frame_conditions :
    (∀ mem user_id data k, k ≠ user_id → remember_user mem user_id data k = mem k) ∧
    (∀ env command a, command ∈ ["recall", "recall user"] →
      handle_command env command a = (a, [])) ∧
    (∀ a inputs k, a.user_memory k ≠ none →
      (runSession a inputs).1.user_memory k ≠ none) := by
  refine ⟨?_, ?_, runSession_memory_mono⟩
  · intro mem user_id data k hk
    simp [remember_user, hk]
  · intro env command a h
    fin_cases h <;> rfl

/-- Witness for C10 at concrete stores, commands and sessions. -/
theorem memory_frame_conditions_witness :
    remember_user emptyMemory "alice" "likes tea" "bob" = emptyMemory "bob" ∧
    handle_command env0 "recall" anon0 = (anon0, []) ∧
    (runSession anon1 [(env0, "scan")]).1.user_memory "alice" ≠ none :=
  ⟨memory_frame_conditions.1 emptyMemory "alice" "likes tea" "bob" (by decide),
   memory_frame_conditions.2.1 env0 "recall" anon0 (by decide),
   memory_frame_conditions.2.2 anon1 [(env0, "scan")] "alice" (by decide)⟩
